import Mathlib

/-!
Verification development for the streaming-udp-video repository.

The repository consists of three translation units:
a single-window UDP receiver (namespace ReceiverV1 below),
a multi-threaded receiver with a select-based non-blocking
GetPacket and a fallback image on timeout (namespace ReceiverMT),
and a multi-threaded sender (namespace Sender).

External collaborators (OpenCV codec and GUI, the Winsock calls,
wall-clock time) are embedded as explicit inputs:
the codec is a record of functions passed in, the GUI is a list of
emitted events, recvfrom and select results are oracle values, and
GetLocalTime text is a string argument.  Everything that the C++
functions compute on top of those inputs is translated directly.
-/

namespace StreamingUDP

/-- kMaxPacketBufferSize: the maximum UDP packet size; the receive
buffer is allocated at exactly this size (all three files). -/
def kMaxPacketBufferSize : Nat := 65535

/-- kDisplayDelayTimeMS: the waitKey delay after a frame is shown. -/
def kDisplayDelayTimeMS : Nat := 15

/-- File name of the fallback picture read by the select-based
GetPacket when no packet is ready (cv imread argument). -/
def kFallbackImageFile : String := "our_team.jpg"

/-- The diagnostic written to stderr when the camera is unavailable. -/
def cameraErrMsg : String := "Could not get frame. Camera not available."

/-- A plain string constant used to instantiate window-name and
timestamp-text arguments in concrete evaluations. -/
def t0 : String := ""

/-- cv Mat values as the program distinguishes them: the empty matrix
(default construction or a failed decode), a matrix decoded from a
byte payload, a camera capture, a matrix read from an image file, and
a matrix with text burned in by putText. -/
inductive Mat where
  | empty : Mat
  | decoded (bytes : List UInt8) : Mat
  | captured (id : Nat) : Mat
  | fromFile (name : String) : Mat
  | withText (base : Mat) (text : String) : Mat
deriving DecidableEq, Repr

/-- Mat empty test (cv Mat empty()). -/
def Mat.isEmpty : Mat → Bool
  | Mat.empty => true
  | _ => false

/-- The opaque image codec and scaler (OpenCV), embedded as explicit
function arguments: imdecode takes the raw bytes, imencode takes the
JPEG quality parameter and the image, resize performs the downscale.
No behaviour is assumed of them here; claims that depend on codec
behaviour carry it as an explicit hypothesis. -/
structure Codec where
  imdecode : List UInt8 → Mat
  imencode : Nat → Mat → List UInt8
  resize : Mat → Mat

/-- GUI and logging side effects, recorded as events. -/
inductive GuiEvent where
  | namedWindow (name : String) : GuiEvent
  | imshow (name : String) (m : Mat) : GuiEvent
  | waitKey (ms : Nat) : GuiEvent
  | logStderr (msg : String) : GuiEvent
deriving DecidableEq, Repr

/-- Total waitKey delay recorded in a list of GUI events. -/
def waitKeyMs (evs : List GuiEvent) : Nat :=
  (evs.map (fun e =>
    match e with
    | GuiEvent.waitKey n => n
    | _ => 0)).sum

/-- The on-screen windows: each named window and the image it shows. -/
abbrev Windows := List (String × Mat)

/-- Replace (or create) the image shown in one named window. -/
def setWindow (ws : Windows) (name : String) (m : Mat) : Windows :=
  (name, m) :: ws.filter (fun p => p.1 != name)

/-- The window contents after a list of GUI events is performed:
every imshow event replaces the image of its window, nothing else
changes the screen. -/
def windowsAfter (evs : List GuiEvent) (ws : Windows) : Windows :=
  evs.foldl (fun acc e =>
    match e with
    | GuiEvent.imshow name m => setWindow acc name m
    | _ => acc) ws

/-- VideoFrame: holds the single cv Mat member frame_image_. The
default constructor makes the empty image. -/
structure VideoFrame where
  frame_image_ : Mat
deriving DecidableEq, Repr

/-- VideoFrame constructor from raw bytes (identical in all three
files): frame_image_ = cv imdecode(frame_bytes, IMREAD_COLOR). -/
def VideoFrame.ofBytes (cv : Codec) (frame_bytes : List UInt8) : VideoFrame :=
  { frame_image_ := Codec.imdecode cv frame_bytes }

/-- BasicProtocolData: the single stored video frame slot. -/
structure BasicProtocolData where
  video_frame_ : VideoFrame
deriving DecidableEq, Repr

/-- BasicProtocolData SetImage: overwrite the slot. -/
def BasicProtocolData.SetImage (self : BasicProtocolData)
    (image : VideoFrame) : BasicProtocolData :=
  { video_frame_ := image }

/-- BasicProtocolData GetImage: return a copy of the slot. -/
def BasicProtocolData.GetImage (self : BasicProtocolData) : VideoFrame :=
  self.video_frame_

/-- A convenient default-constructed protocol state. -/
def emptyProtocol : BasicProtocolData :=
  { video_frame_ := VideoFrame.mk Mat.empty }

/-- What one recvfrom call observed: either the call failed (negative
return), or a datagram with the given payload was delivered (recvfrom
reads at most the buffer size; a zero-length datagram yields zero
bytes). -/
inductive RecvOutcome where
  | error : RecvOutcome
  | datagram (bytes : List UInt8) : RecvOutcome
deriving DecidableEq, Repr

/-- The num_bytes value recvfrom returns for the outcome: -1 on error,
otherwise the delivered length capped at the buffer size. -/
def recvNumBytes : RecvOutcome → Int
  | RecvOutcome.error => -1
  | RecvOutcome.datagram bytes =>
      ((min bytes.length kMaxPacketBufferSize : Nat) : Int)

/-- The buffer contents recvfrom wrote (up to the buffer size). -/
def recvBuffer : RecvOutcome → List UInt8
  | RecvOutcome.error => []
  | RecvOutcome.datagram bytes => bytes.take kMaxPacketBufferSize

/-- The body shared by every GetPacket variant: copy the first
num_bytes buffer bytes into the data vector when num_bytes > 0,
otherwise return the empty vector. -/
def recvPacketData (recv : RecvOutcome) : List UInt8 :=
  if 0 < recvNumBytes recv then
    (recvBuffer recv).take (recvNumBytes recv).toNat
  else
    []

/-- What one select call observed: the socket became readable after
waitedMs (and the subsequent recvfrom had the given outcome), or the
one-second timeout elapsed with nothing to read. -/
inductive SelectOutcome where
  | readable (waitedMs : Nat) (recv : RecvOutcome) : SelectOutcome
  | timeout : SelectOutcome
deriving DecidableEq, Repr

/-- The outcome of one loop-body execution of a session: since the
loop bodies contain no break, no return and no exit call, the only
constructor the translations produce is continueLoop; terminated is
the outcome the loop bodies never take. -/
inductive SessionStep (σ : Type) where
  | continueLoop (st : σ) : SessionStep σ
  | terminated : SessionStep σ
deriving DecidableEq, Repr

/-- Camera capture state: whether the cv VideoCapture is opened, the
Boolean outcome of the float comparison scale_ < 1.0, and the
show_video_ flag. -/
structure VideoCapture where
  isOpened : Bool
  scale_lt_one : Bool
  show_video_ : Bool
deriving DecidableEq, Repr

/-- A UDP datagram handed to sendto: its exact payload bytes. -/
structure Datagram where
  payload : List UInt8
deriving DecidableEq, Repr

namespace ReceiverV1

/-- Window name constant of the single-window receiver file. -/
def kWindowName : String := "Streaming Video"

/-- JPEG quality constant of the single-window receiver file. -/
def kJPEGQuality : Nat := 90

/-- VideoFrame Display (single-window receiver): do nothing for empty
images; otherwise open the shared window, burn the local-time text in,
show the image and wait kDisplayDelayTimeMS. -/
def VideoFrame.Display (now : String) (f : VideoFrame) : List GuiEvent :=
  if Mat.isEmpty f.frame_image_ then
    []
  else
    [GuiEvent.namedWindow kWindowName,
     GuiEvent.imshow kWindowName (Mat.withText f.frame_image_ now),
     GuiEvent.waitKey kDisplayDelayTimeMS]

/-- VideoFrame GetJPEG: imencode with the file-local quality. -/
def VideoFrame.GetJPEG (cv : Codec) (f : VideoFrame) : List UInt8 :=
  Codec.imencode cv kJPEGQuality f.frame_image_

/-- BasicProtocolData UnpackData (single-window receiver): store
VideoFrame(raw_bytes) unconditionally. -/
def BasicProtocolData.UnpackData (cv : Codec) (self : BasicProtocolData)
    (raw_bytes : List UInt8) : BasicProtocolData :=
  { video_frame_ := VideoFrame.ofBytes cv raw_bytes }

/-- BasicProtocolData PackageData: the JPEG bytes of the stored frame. -/
def BasicProtocolData.PackageData (cv : Codec)
    (self : BasicProtocolData) : List UInt8 :=
  VideoFrame.GetJPEG cv self.video_frame_

/-- ReceiverSocket GetPacket (blocking variant): recvfrom into the
kMaxPacketBufferSize buffer, then copy the data (if any) into the
returned vector. -/
def ReceiverSocket.GetPacket (recv : RecvOutcome) : List UInt8 :=
  recvPacketData recv

/-- VideoCapture GetFrameFromCamera (single-window receiver file):
if the capture is not opened, log to stderr and return the empty
frame; otherwise take the captured image, resize it when the scale is
below one, and display it when show_video_ is set. -/
def VideoCapture.GetFrameFromCamera (cv : Codec) (cap : VideoCapture)
    (captured : Mat) (now : String) : VideoFrame × List GuiEvent :=
  if cap.isOpened = false then
    (VideoFrame.mk Mat.empty, [GuiEvent.logStderr cameraErrMsg])
  else
    let image := if cap.scale_lt_one then Codec.resize cv captured else captured
    let video_frame := VideoFrame.mk image
    if cap.show_video_ then
      (video_frame, VideoFrame.Display now video_frame)
    else
      (video_frame, [])

end ReceiverV1

namespace ReceiverMT

/-- JPEG quality constant of the multi-threaded receiver file. -/
def kJPEGQuality : Nat := 90

/-- The select timeout of the non-blocking GetPacket: timeout.tv_sec
is 1 and tv_usec is 0, so one second (in milliseconds here). -/
def kSelectTimeoutMs : Nat := 1000

/-- VideoFrame Display (multi-threaded receiver): do nothing for
empty images; otherwise open the given window, burn the local-time
text into the member image (the method is non-const), show it and
wait kDisplayDelayTimeMS.  Returns the mutated frame and the events. -/
def VideoFrame.Display (now : String) (kWindowName : String)
    (f : VideoFrame) : VideoFrame × List GuiEvent :=
  if Mat.isEmpty f.frame_image_ then
    (f, [])
  else
    let shown := Mat.withText f.frame_image_ now
    (VideoFrame.mk shown,
     [GuiEvent.namedWindow kWindowName,
      GuiEvent.imshow kWindowName shown,
      GuiEvent.waitKey kDisplayDelayTimeMS])

/-- BasicProtocolData UnpackData (multi-threaded receiver): store
VideoFrame(raw_bytes) when raw_bytes is non-empty, otherwise store the
default-constructed (empty) VideoFrame. -/
def BasicProtocolData.UnpackData (cv : Codec) (self : BasicProtocolData)
    (raw_bytes : List UInt8) : BasicProtocolData :=
  if raw_bytes.isEmpty = false then
    { video_frame_ := VideoFrame.ofBytes cv raw_bytes }
  else
    { video_frame_ := VideoFrame.mk Mat.empty }

/-- Result of the select-based GetPacket: the returned byte vector,
the GUI events it performed, and the milliseconds it spent blocked
(select wait plus any waitKey delay it executed). -/
structure GetPacketResult where
  data : List UInt8
  events : List GuiEvent
  elapsedMs : Nat
deriving DecidableEq, Repr

/-- ReceiverSocket GetPacket (select-based variant): select on the
socket with a one-second timeout.  If the socket is readable, recvfrom
as in the blocking variant and return the data (select returned as
soon as the socket became readable, so the wait is capped by the
timeout).  Otherwise imread the fallback picture, open the window,
show it, wait kDisplayDelayTimeMS, and return the empty vector. -/
def ReceiverSocket.GetPacket (sel : SelectOutcome)
    (kWindowName : String) : GetPacketResult :=
  match sel with
  | SelectOutcome.readable waitedMs recv =>
      { data := recvPacketData recv
        events := []
        elapsedMs := min waitedMs kSelectTimeoutMs }
  | SelectOutcome.timeout =>
      { data := []
        events := [GuiEvent.namedWindow kWindowName,
                   GuiEvent.imshow kWindowName (Mat.fromFile kFallbackImageFile),
                   GuiEvent.waitKey kDisplayDelayTimeMS]
        elapsedMs := kSelectTimeoutMs + kDisplayDelayTimeMS }

/-- The environment observed by BindSocketToListen: whether the
socket handle is valid, whether ioctlsocket(FIONBIO) succeeded, and
whether bind returned a non-negative status. -/
structure BindEnv where
  socketValid : Bool
  ioctlOk : Bool
  bindOk : Bool
deriving DecidableEq, Repr

/-- What BindSocketToListen does: return true or false, or call
exit(-1) directly (the ioctlsocket failure path closes the socket,
calls WSACleanup and exits the process). -/
inductive BindResult where
  | ok : BindResult
  | failed : BindResult
  | exitProcess (code : Int) : BindResult
deriving DecidableEq, Repr

/-- ReceiverSocket BindSocketToListen (multi-threaded receiver):
invalid socket handle gives false; an ioctlsocket failure exits the
process with code -1; a failed bind gives false; otherwise true. -/
def ReceiverSocket.BindSocketToListen (env : BindEnv) : BindResult :=
  if env.socketValid = false then
    BindResult.failed
  else if env.ioctlOk = false then
    BindResult.exitProcess (-1)
  else if env.bindOk = false then
    BindResult.failed
  else
    BindResult.ok

/-- The startup outcome of one receive thread: either some exit call
terminated the whole process, or the thread entered its while loop. -/
inductive StartOutcome where
  | exitProcess (code : Int) : StartOutcome
  | running : StartOutcome
deriving DecidableEq, Repr

/-- Whether a startup outcome is a process exit. -/
def StartOutcome.isExit : StartOutcome → Bool
  | StartOutcome.exitProcess _ => true
  | StartOutcome.running => false

/-- The receive function up to its while loop: a failed WSAStartup
calls exit(0); a BindSocketToListen that returns false is logged and
followed by exit(-1); a BindSocketToListen that itself exits
propagates that exit; otherwise the loop is entered. -/
def receiveStart (wsaOk : Bool) (env : BindEnv) : StartOutcome :=
  if wsaOk = false then
    StartOutcome.exitProcess 0
  else
    match ReceiverSocket.BindSocketToListen env with
    | BindResult.exitProcess c => StartOutcome.exitProcess c
    | BindResult.failed => StartOutcome.exitProcess (-1)
    | BindResult.ok => StartOutcome.running

/-- The startup outcomes of a list of receive sessions, one per
(wsaOk, BindEnv) configuration, as launched by main on one thread
each. -/
def startOutcomes (cfgs : List (Bool × BindEnv)) : List StartOutcome :=
  cfgs.map (fun c => receiveStart c.1 c.2)

/-- Which sessions are still running after startup.  exit() terminates
the entire process, so if any session startup called exit, every
session (the caller and all siblings on their threads) is dead;
otherwise each session runs its loop. -/
def sessionsRunning (cfgs : List (Bool × BindEnv)) : List Bool :=
  let starts := startOutcomes cfgs
  if starts.any StartOutcome.isExit then
    starts.map (fun _ => false)
  else
    starts.map (fun s => s = StartOutcome.running)

/-- One body execution of the receive while loop: GetPacket (select
variant), UnpackData the result into the slot, then Display a copy of
the stored image (GetImage returns a copy, so the putText mutation
inside Display does not reach the slot).  Returns the new protocol
state, the GUI events, and the blocked milliseconds. -/
def receiveIter (cv : Codec) (sel : SelectOutcome) (now : String)
    (kWindowName_id : String) (st : BasicProtocolData) :
    BasicProtocolData × List GuiEvent × Nat :=
  let gp := ReceiverSocket.GetPacket sel kWindowName_id
  let st2 := BasicProtocolData.UnpackData cv st gp.data
  let d := VideoFrame.Display now kWindowName_id (BasicProtocolData.GetImage st2)
  (st2, gp.events ++ d.2, gp.elapsedMs + waitKeyMs d.2)

/-- The loop-step outcome of one receive iteration: the while body
contains no break, no return and no exit call on any path, so every
iteration continues with the updated state. -/
def receiveIterStep (cv : Codec) (sel : SelectOutcome) (now : String)
    (kWindowName_id : String) (st : BasicProtocolData) :
    SessionStep BasicProtocolData :=
  SessionStep.continueLoop (receiveIter cv sel now kWindowName_id st).1

/-- n iterations of the receive loop under a permanently timing-out
select: final state, accumulated GUI events, accumulated blocked
milliseconds. -/
def receiveRun (cv : Codec) (now : String) (kWindowName_id : String)
    (st : BasicProtocolData) : Nat → BasicProtocolData × List GuiEvent × Nat
  | 0 => (st, [], 0)
  | n + 1 =>
      let it := receiveIter cv SelectOutcome.timeout now kWindowName_id st
      let rest := receiveRun cv now kWindowName_id it.1 n
      (rest.1, it.2.1 ++ rest.2.1, it.2.2 + rest.2.2)

end ReceiverMT

namespace Sender

/-- Window name constant of the sender file. -/
def kWindowName : String := "Streaming Video"

/-- JPEG quality constant of the sender file. -/
def kJPEGQuality : Nat := 60

/-- VideoFrame Display (sender file): do nothing for empty images;
otherwise open the shared window, show the image unmodified and wait
kDisplayDelayTimeMS. -/
def VideoFrame.Display (f : VideoFrame) : List GuiEvent :=
  if Mat.isEmpty f.frame_image_ then
    []
  else
    [GuiEvent.namedWindow kWindowName,
     GuiEvent.imshow kWindowName f.frame_image_,
     GuiEvent.waitKey kDisplayDelayTimeMS]

/-- VideoFrame GetJPEG: imencode with the file-local quality (60). -/
def VideoFrame.GetJPEG (cv : Codec) (f : VideoFrame) : List UInt8 :=
  Codec.imencode cv kJPEGQuality f.frame_image_

/-- BasicProtocolData PackageData (sender file): exactly the JPEG
bytes of the stored frame, nothing prepended or appended. -/
def BasicProtocolData.PackageData (cv : Codec)
    (self : BasicProtocolData) : List UInt8 :=
  VideoFrame.GetJPEG cv self.video_frame_

/-- BasicProtocolData UnpackData (sender file): store
VideoFrame(raw_bytes) unconditionally. -/
def BasicProtocolData.UnpackData (cv : Codec) (self : BasicProtocolData)
    (raw_bytes : List UInt8) : BasicProtocolData :=
  { video_frame_ := VideoFrame.ofBytes cv raw_bytes }

/-- SenderSocket SendPacket: sendto(data.data(), data.size()), i.e.
the datagram put on the wire carries exactly the given bytes. -/
def SenderSocket.SendPacket (data : List UInt8) : Datagram :=
  { payload := data }

/-- ReceiverSocket GetPacket (sender file, blocking variant):
identical body to the single-window receiver variant. -/
def ReceiverSocket.GetPacket (recv : RecvOutcome) : List UInt8 :=
  recvPacketData recv

/-- VideoCapture GetFrameFromCamera (sender file): if the capture is
not opened, log to stderr and return the empty frame; otherwise take
the captured image, resize it when the scale is below one, burn the
offset local-time text in, and display when show_video_ is set. -/
def VideoCapture.GetFrameFromCamera (cv : Codec) (cap : VideoCapture)
    (captured : Mat) (now : String) : VideoFrame × List GuiEvent :=
  if cap.isOpened = false then
    (VideoFrame.mk Mat.empty, [GuiEvent.logStderr cameraErrMsg])
  else
    let image := if cap.scale_lt_one then Codec.resize cv captured else captured
    let image2 := Mat.withText image now
    let video_frame := VideoFrame.mk image2
    if cap.show_video_ then
      (video_frame, VideoFrame.Display video_frame)
    else
      (video_frame, [])

/-- One body execution of the send loop (send1, send2, send3 all
share it): SetImage(GetFrameFromCamera), then SendPacket(PackageData).
Returns the new protocol state, the sent datagram and the events. -/
def sendIter (cv : Codec) (cap : VideoCapture) (captured : Mat)
    (now : String) (st : BasicProtocolData) :
    BasicProtocolData × Datagram × List GuiEvent :=
  let r := VideoCapture.GetFrameFromCamera cv cap captured now
  let st2 := BasicProtocolData.SetImage st r.1
  (st2, SenderSocket.SendPacket (BasicProtocolData.PackageData cv st2), r.2)

/-- The loop-step outcome of one send iteration: the while body
contains no break, no return and no exit call on any path, so every
iteration continues with the updated state. -/
def sendIterStep (cv : Codec) (cap : VideoCapture) (captured : Mat)
    (now : String) (st : BasicProtocolData) :
    SessionStep BasicProtocolData :=
  SessionStep.continueLoop (sendIter cv cap captured now st).1

end Sender

/-- A concrete executable codec used to evaluate the definitions on
concrete inputs: byte strings of length at least two decode to an
image, shorter ones (including the empty string) are malformed and
decode to the empty matrix; encoding an empty matrix gives no bytes. -/
def testCodec : Codec :=
  { imdecode := fun bytes =>
      if 2 ≤ bytes.length then Mat.decoded bytes else Mat.empty
    imencode := fun _q m => if Mat.isEmpty m then [] else [1]
    resize := fun m => m }

/-- Helper: the returned vector of the shared recvfrom body never
exceeds the buffer size. -/
theorem recvPacketData_length_le (recv : RecvOutcome) :
    (recvPacketData recv).length ≤ kMaxPacketBufferSize := by
  cases recv with
  | error => simp [recvPacketData, recvNumBytes]
  | datagram bytes =>
      by_cases h : 0 < recvNumBytes (RecvOutcome.datagram bytes)
      · simp only [recvPacketData, if_pos h, recvBuffer]
        calc ((bytes.take kMaxPacketBufferSize).take
                (recvNumBytes (RecvOutcome.datagram bytes)).toNat).length
            ≤ (bytes.take kMaxPacketBufferSize).length := by
              simp [List.length_take]
          _ ≤ kMaxPacketBufferSize := by simp [List.length_take]
      · simp [recvPacketData, if_neg h]

/-- Helper: looking up any index in a constant-false list gives false. -/
theorem getD_map_false {α : Type} (l : List α) (j : Nat) :
    (l.map (fun _ => false)).getD j false = false := by
  induction l generalizing j with
  | nil => simp [List.getD]
  | cons a t ih =>
      cases j with
      | zero => simp [List.getD]
      | succ k => simp only [List.map_cons, List.getD_cons_succ]; exact ih k

/-- Helper: one receive-loop iteration under a select timeout, in
closed form: the slot is reset to the empty frame, the fallback
picture is shown in the window, and the iteration blocks for the
select timeout plus the fallback waitKey delay. -/
theorem receiveIter_timeout_eq (cv : Codec) (now w : String)
    (st : BasicProtocolData) :
    ReceiverMT.receiveIter cv SelectOutcome.timeout now w st =
      (emptyProtocol,
       [GuiEvent.namedWindow w,
        GuiEvent.imshow w (Mat.fromFile kFallbackImageFile),
        GuiEvent.waitKey kDisplayDelayTimeMS],
       ReceiverMT.kSelectTimeoutMs + kDisplayDelayTimeMS) := rfl

/-- Claim C1: UnpackData of an empty byte vector leaves the stored
frame equal to the empty VideoFrame, and constructing a VideoFrame
from bytes the codec cannot decode (empty or malformed, on which
imdecode gives the empty matrix) yields the empty image; both paths
are total functions, so no error is raised. -/
theorem C1_empty_unpack_yields_empty_frame (cv : Codec)
    (st : BasicProtocolData) (bytes : List UInt8)
    (h : Codec.imdecode cv bytes = Mat.empty) :
    (ReceiverMT.BasicProtocolData.UnpackData cv st []).video_frame_
      = VideoFrame.mk Mat.empty
    ∧ VideoFrame.ofBytes cv bytes = VideoFrame.mk Mat.empty := by
  constructor
  · rfl
  · simp [VideoFrame.ofBytes, h]

/-- Witness for C1 at the concrete executable codec, with the
malformed one-byte input. -/
theorem C1_empty_unpack_yields_empty_frame_witness :
    Codec.imdecode testCodec [7] = Mat.empty
    ∧ ((ReceiverMT.BasicProtocolData.UnpackData testCodec emptyProtocol []).video_frame_
        = VideoFrame.mk Mat.empty
      ∧ VideoFrame.ofBytes testCodec [7] = VideoFrame.mk Mat.empty) :=
  ⟨by decide,
   C1_empty_unpack_yields_empty_frame testCodec emptyProtocol [7] (by decide)⟩

/-- Claim C2 counterexample: two concurrently launched receiver
sessions, the first with a failing bind and the second with a
succeeding one.  The failing session calls exit(-1), and after
startup the sibling session is not running either, contradicting the
claim that every sibling session continues running. -/
theorem C2_bind_failure_kills_sibling_cex :
    ReceiverMT.receiveStart true (ReceiverMT.BindEnv.mk true true false)
      = ReceiverMT.StartOutcome.exitProcess (-1)
    ∧ ReceiverMT.sessionsRunning
        [(true, ReceiverMT.BindEnv.mk true true false),
         (true, ReceiverMT.BindEnv.mk true true true)]
      = [false, false] := by
  constructor
  · rfl
  · decide

/-- Claim C2 as amended: a Bind failure in a session makes that
session call exit(-1) after logging, and because exit terminates the
whole process, every session (the failing one and all siblings) is
terminated whenever any session startup exits. -/
theorem C2_amended_bind_failure_terminates_process
    (env : ReceiverMT.BindEnv) (cfgs : List (Bool × ReceiverMT.BindEnv))
    (h1 : env.socketValid = true) (h2 : env.ioctlOk = true)
    (h3 : env.bindOk = false)
    (h4 : (ReceiverMT.startOutcomes cfgs).any ReceiverMT.StartOutcome.isExit = true) :
    ReceiverMT.receiveStart true env = ReceiverMT.StartOutcome.exitProcess (-1)
    ∧ ∀ j, (ReceiverMT.sessionsRunning cfgs).getD j false = false := by
  constructor
  · simp [ReceiverMT.receiveStart, ReceiverMT.ReceiverSocket.BindSocketToListen,
      h1, h2, h3]
  · intro j
    simp only [ReceiverMT.sessionsRunning, h4, if_pos]
    exact getD_map_false _ j

/-- Witness for C2 as amended, at a concrete failing-bind
configuration launched next to a healthy sibling. -/
theorem C2_amended_bind_failure_terminates_process_witness :
    ReceiverMT.receiveStart true (ReceiverMT.BindEnv.mk true true false)
        = ReceiverMT.StartOutcome.exitProcess (-1)
    ∧ (ReceiverMT.sessionsRunning
        [(true, ReceiverMT.BindEnv.mk true true false),
         (true, ReceiverMT.BindEnv.mk true true true)]).getD 1 false = false :=
  ⟨(C2_amended_bind_failure_terminates_process (ReceiverMT.BindEnv.mk true true false)
      [(true, ReceiverMT.BindEnv.mk true true false),
       (true, ReceiverMT.BindEnv.mk true true true)]
      rfl rfl rfl (by decide)).1,
   (C2_amended_bind_failure_terminates_process (ReceiverMT.BindEnv.mk true true false)
      [(true, ReceiverMT.BindEnv.mk true true false),
       (true, ReceiverMT.BindEnv.mk true true true)]
      rfl rfl rfl (by decide)).2 1⟩

/-- Claim C3: when select times out, GetPacket shows the fallback
picture in the window and returns the empty byte vector; the whole
loop iteration blocks for exactly the one-second select timeout plus
the fallback waitKey delay (so never longer than the timeout plus
processing overhead); and over n iterations of a permanently
timing-out select the fallback picture is shown exactly n times,
with total blocked time n times that bound. -/
theorem C3_timeout_displays_fallback (cv : Codec) (now w : String)
    (st : BasicProtocolData) (n : Nat) :
    (ReceiverMT.ReceiverSocket.GetPacket SelectOutcome.timeout w).data = []
    ∧ GuiEvent.imshow w (Mat.fromFile kFallbackImageFile)
        ∈ (ReceiverMT.ReceiverSocket.GetPacket SelectOutcome.timeout w).events
    ∧ (ReceiverMT.receiveIter cv SelectOutcome.timeout now w st).2.2
        = ReceiverMT.kSelectTimeoutMs + kDisplayDelayTimeMS
    ∧ (ReceiverMT.receiveRun cv now w st n).2.1.count
        (GuiEvent.imshow w (Mat.fromFile kFallbackImageFile)) = n
    ∧ (ReceiverMT.receiveRun cv now w st n).2.2
        = n * (ReceiverMT.kSelectTimeoutMs + kDisplayDelayTimeMS) := by
  refine ⟨rfl, ?_, ?_, ?_, ?_⟩
  · simp [ReceiverMT.ReceiverSocket.GetPacket]
  · rw [receiveIter_timeout_eq]
  · induction n generalizing st with
    | zero => simp [ReceiverMT.receiveRun]
    | succ k ih =>
        simp only [ReceiverMT.receiveRun, receiveIter_timeout_eq,
          List.count_append, List.count_cons, List.count_nil]
        rw [ih emptyProtocol]
        simp
        omega
  · induction n generalizing st with
    | zero => simp [ReceiverMT.receiveRun]
    | succ k ih =>
        simp only [ReceiverMT.receiveRun, receiveIter_timeout_eq]
        rw [ih emptyProtocol]
        ring

/-- Claim C4 counterexample: with the socket readable and recvfrom
reporting an error (a channel-level receive failure), the loop
iteration does not terminate the session, contradicting the claim
that such a failure is fatal. -/
theorem C4_recv_error_not_fatal_cex :
    ReceiverMT.receiveIterStep testCodec
        (SelectOutcome.readable 0 RecvOutcome.error) t0 t0 emptyProtocol
      ≠ SessionStep.terminated := by decide

/-- Claim C4 as amended: no receiver-loop iteration terminates the
session, whatever select and recvfrom report: a channel-level
recvfrom failure is absorbed into an empty packet (just like a
Timeout) and the session continues in every case. -/
theorem C4_amended_no_receive_failure_is_fatal (cv : Codec)
    (sel : SelectOutcome) (now w : String) (st : BasicProtocolData)
    (waited : Nat) :
    ReceiverMT.receiveIterStep cv sel now w st ≠ SessionStep.terminated
    ∧ (ReceiverMT.ReceiverSocket.GetPacket
        (SelectOutcome.readable waited RecvOutcome.error) w).data = [] := by
  constructor
  · intro h
    exact SessionStep.noConfusion h
  · rfl

/-- Claim C5 counterexample: a slot holding a previously decoded
frame is not retained across a cycle in which nothing arrives:
UnpackData of the empty vector overwrites it with the empty frame,
contradicting the claim that the slot is overwritten only on a
successful receive. -/
theorem C5_slot_not_retained_cex :
    (ReceiverMT.BasicProtocolData.UnpackData testCodec
        (BasicProtocolData.mk (VideoFrame.mk (Mat.decoded [1, 1]))) []).video_frame_
      ≠ VideoFrame.mk (Mat.decoded [1, 1]) := by decide

/-- Claim C5 as amended: on a cycle in which no payload is received
(recvfrom error or zero-length datagram), the single slot is reset to
the empty frame rather than retaining the previous one; the iteration
emits no GUI events, so the previously displayed window contents
persist on screen; and on a cycle with a non-empty payload the slot is
overwritten with the newly decoded frame.  There is still no frame
history or queue: the state is the single slot. -/
theorem C5_amended_empty_receive_resets_slot (cv : Codec)
    (st : BasicProtocolData) (now w : String) (waited : Nat)
    (recv : RecvOutcome) :
    (recvPacketData recv = [] →
        (ReceiverMT.receiveIter cv (SelectOutcome.readable waited recv) now w st).1
          = emptyProtocol
        ∧ (ReceiverMT.receiveIter cv (SelectOutcome.readable waited recv) now w st).2.1
          = []
        ∧ ∀ ws : Windows,
            windowsAfter
              (ReceiverMT.receiveIter cv
                (SelectOutcome.readable waited recv) now w st).2.1 ws = ws)
    ∧ (recvPacketData recv ≠ [] →
        (ReceiverMT.receiveIter cv (SelectOutcome.readable waited recv) now w st).1
          = BasicProtocolData.mk (VideoFrame.ofBytes cv (recvPacketData recv))) := by
  constructor
  · intro h
    refine ⟨?_, ?_, ?_⟩ <;>
      simp [ReceiverMT.receiveIter, ReceiverMT.ReceiverSocket.GetPacket,
        ReceiverMT.BasicProtocolData.UnpackData, h, BasicProtocolData.GetImage,
        ReceiverMT.VideoFrame.Display, Mat.isEmpty, emptyProtocol, windowsAfter]
  · intro h
    simp [ReceiverMT.receiveIter, ReceiverMT.ReceiverSocket.GetPacket,
      ReceiverMT.BasicProtocolData.UnpackData, h, BasicProtocolData.GetImage]

/-- Witness for C5 as amended: the no-payload part at a recvfrom
error, the successful part at a two-byte datagram. -/
theorem C5_amended_empty_receive_resets_slot_witness :
    ((ReceiverMT.receiveIter testCodec (SelectOutcome.readable 0 RecvOutcome.error)
        t0 t0 (BasicProtocolData.mk (VideoFrame.mk (Mat.decoded [1, 1])))).1
      = emptyProtocol
     ∧ (ReceiverMT.receiveIter testCodec (SelectOutcome.readable 0 RecvOutcome.error)
        t0 t0 (BasicProtocolData.mk (VideoFrame.mk (Mat.decoded [1, 1])))).2.1 = []
     ∧ ∀ ws : Windows,
        windowsAfter
          (ReceiverMT.receiveIter testCodec (SelectOutcome.readable 0 RecvOutcome.error)
            t0 t0 (BasicProtocolData.mk (VideoFrame.mk (Mat.decoded [1, 1])))).2.1 ws
          = ws)
    ∧ (ReceiverMT.receiveIter testCodec
        (SelectOutcome.readable 0 (RecvOutcome.datagram [1, 1])) t0 t0 emptyProtocol).1
      = BasicProtocolData.mk
          (VideoFrame.ofBytes testCodec
            (recvPacketData (RecvOutcome.datagram [1, 1]))) :=
  ⟨(C5_amended_empty_receive_resets_slot testCodec
      (BasicProtocolData.mk (VideoFrame.mk (Mat.decoded [1, 1]))) t0 t0 0
      RecvOutcome.error).1 (by decide),
   (C5_amended_empty_receive_resets_slot testCodec emptyProtocol t0 t0 0
      (RecvOutcome.datagram [1, 1])).2 (by decide)⟩

/-- Claim C6: Display on a VideoFrame holding the empty image is a
safe no-op in both receiver variants: it returns at once with no GUI
events (so no window is opened or updated and the screen state is
unchanged), and the multi-window variant leaves the frame unmodified. -/
theorem C6_display_empty_is_noop (f : VideoFrame) (now w : String)
    (ws : Windows) (h : f.frame_image_ = Mat.empty) :
    ReceiverV1.VideoFrame.Display now f = []
    ∧ ReceiverMT.VideoFrame.Display now w f = (f, [])
    ∧ windowsAfter (ReceiverV1.VideoFrame.Display now f) ws = ws := by
  refine ⟨?_, ?_, ?_⟩ <;>
    simp [ReceiverV1.VideoFrame.Display, ReceiverMT.VideoFrame.Display, h,
      Mat.isEmpty, windowsAfter]

/-- Witness for C6 at the default-constructed empty frame. -/
theorem C6_display_empty_is_noop_witness :
    (VideoFrame.mk Mat.empty).frame_image_ = Mat.empty
    ∧ (ReceiverV1.VideoFrame.Display t0 (VideoFrame.mk Mat.empty) = []
      ∧ ReceiverMT.VideoFrame.Display t0 t0 (VideoFrame.mk Mat.empty)
          = (VideoFrame.mk Mat.empty, [])
      ∧ windowsAfter (ReceiverV1.VideoFrame.Display t0 (VideoFrame.mk Mat.empty)) []
          = []) :=
  ⟨rfl, C6_display_empty_is_noop (VideoFrame.mk Mat.empty) t0 t0 [] rfl⟩

/-- Claim C7: PackageData is the identity transform on the encoded
frame, and the datagram handed to sendto carries exactly the JPEG
bytes of the current frame — no header, sequence number or checksum
is prepended or appended. -/
theorem C7_package_is_identity (cv : Codec) (st : BasicProtocolData) :
    Sender.SenderSocket.SendPacket (Sender.BasicProtocolData.PackageData cv st)
      = Datagram.mk (Sender.VideoFrame.GetJPEG cv st.video_frame_)
    ∧ (Sender.SenderSocket.SendPacket (Sender.BasicProtocolData.PackageData cv st)).payload
      = Codec.imencode cv Sender.kJPEGQuality st.video_frame_.frame_image_ :=
  ⟨rfl, rfl⟩

/-- Claim C8: the receive buffer size is exactly 65535 and every
GetPacket variant returns a vector of at most that many bytes, since
recvfrom is bounded by the buffer size. -/
theorem C8_packet_length_bounded :
    kMaxPacketBufferSize = 65535
    ∧ (∀ recv : RecvOutcome,
        (ReceiverV1.ReceiverSocket.GetPacket recv).length ≤ kMaxPacketBufferSize)
    ∧ (∀ recv : RecvOutcome,
        (Sender.ReceiverSocket.GetPacket recv).length ≤ kMaxPacketBufferSize)
    ∧ (∀ (sel : SelectOutcome) (w : String),
        (ReceiverMT.ReceiverSocket.GetPacket sel w).data.length
          ≤ kMaxPacketBufferSize) := by
  refine ⟨rfl, fun recv => recvPacketData_length_le recv,
    fun recv => recvPacketData_length_le recv, fun sel w => ?_⟩
  cases sel with
  | readable waited recv => exact recvPacketData_length_le recv
  | timeout => simp [ReceiverMT.ReceiverSocket.GetPacket]

/-- Claim C9: when the capture source is not opened, both
GetFrameFromCamera variants log the diagnostic to stderr and return
the empty frame for that cycle, and the sender-loop iteration still
continues — the failure is never fatal or propagated. -/
theorem C9_camera_unavailable_recovers (cv : Codec) (cap : VideoCapture)
    (captured : Mat) (now : String) (st : BasicProtocolData)
    (h : cap.isOpened = false) :
    Sender.VideoCapture.GetFrameFromCamera cv cap captured now
      = (VideoFrame.mk Mat.empty, [GuiEvent.logStderr cameraErrMsg])
    ∧ ReceiverV1.VideoCapture.GetFrameFromCamera cv cap captured now
      = (VideoFrame.mk Mat.empty, [GuiEvent.logStderr cameraErrMsg])
    ∧ Sender.sendIterStep cv cap captured now st ≠ SessionStep.terminated := by
  refine ⟨?_, ?_, ?_⟩
  · simp [Sender.VideoCapture.GetFrameFromCamera, h]
  · simp [ReceiverV1.VideoCapture.GetFrameFromCamera, h]
  · intro hh
    exact SessionStep.noConfusion hh

/-- Witness for C9 at a concrete closed camera. -/
theorem C9_camera_unavailable_recovers_witness :
    (VideoCapture.mk false false false).isOpened = false
    ∧ (Sender.VideoCapture.GetFrameFromCamera testCodec
          (VideoCapture.mk false false false) Mat.empty t0
        = (VideoFrame.mk Mat.empty, [GuiEvent.logStderr cameraErrMsg])
      ∧ ReceiverV1.VideoCapture.GetFrameFromCamera testCodec
          (VideoCapture.mk false false false) Mat.empty t0
        = (VideoFrame.mk Mat.empty, [GuiEvent.logStderr cameraErrMsg])
      ∧ Sender.sendIterStep testCodec (VideoCapture.mk false false false)
          Mat.empty t0 emptyProtocol ≠ SessionStep.terminated) :=
  ⟨rfl, C9_camera_unavailable_recovers testCodec (VideoCapture.mk false false false)
      Mat.empty t0 emptyProtocol rfl⟩

/-- Claim C10: whenever recvfrom reports a non-positive byte count (a
socket error or a zero-length datagram), every GetPacket variant
returns the empty byte vector — indistinguishable from the select
timeout result — and the receiver-loop iteration continues in every
case. -/
theorem C10_nonpositive_recv_yields_empty (recv : RecvOutcome)
    (h : recvNumBytes recv ≤ 0) :
    ReceiverV1.ReceiverSocket.GetPacket recv = []
    ∧ Sender.ReceiverSocket.GetPacket recv = []
    ∧ (∀ (w : String) (waited : Nat),
        (ReceiverMT.ReceiverSocket.GetPacket
          (SelectOutcome.readable waited recv) w).data = [])
    ∧ (∀ w : String,
        (ReceiverMT.ReceiverSocket.GetPacket SelectOutcome.timeout w).data = [])
    ∧ (∀ (cv : Codec) (now w : String) (st : BasicProtocolData),
        ReceiverMT.receiveIterStep cv (SelectOutcome.readable 0 recv) now w st
          ≠ SessionStep.terminated) := by
  have hempty : recvPacketData recv = [] := by
    have hnot : ¬ 0 < recvNumBytes recv := by omega
    simp [recvPacketData, if_neg hnot]
  refine ⟨hempty, hempty, fun w waited => hempty, fun w => rfl,
    fun cv now w st hh => SessionStep.noConfusion hh⟩

/-- Witness for C10 at the zero-length datagram. -/
theorem C10_nonpositive_recv_yields_empty_witness :
    recvNumBytes (RecvOutcome.datagram []) ≤ 0
    ∧ (ReceiverV1.ReceiverSocket.GetPacket (RecvOutcome.datagram []) = []
      ∧ Sender.ReceiverSocket.GetPacket (RecvOutcome.datagram []) = []
      ∧ (∀ (w : String) (waited : Nat),
          (ReceiverMT.ReceiverSocket.GetPacket
            (SelectOutcome.readable waited (RecvOutcome.datagram [])) w).data = [])
      ∧ (∀ w : String,
          (ReceiverMT.ReceiverSocket.GetPacket SelectOutcome.timeout w).data = [])
      ∧ (∀ (cv : Codec) (now w : String) (st : BasicProtocolData),
          ReceiverMT.receiveIterStep cv
            (SelectOutcome.readable 0 (RecvOutcome.datagram [])) now w st
            ≠ SessionStep.terminated)) :=
  ⟨by decide, C10_nonpositive_recv_yields_empty (RecvOutcome.datagram []) (by decide)⟩

end StreamingUDP
